import Mathlib

/-
Verification of the command-dispatch layer of the PluralKit bot
(src/pluralkit/bot/commands/__init__.py, misc_commands.py,
message_commands.py).

Python strings are modelled as `List Char`.  Python `None`-or-string
values are modelled as `Option (List Char)`.  `str.strip()` is modelled
over the ASCII whitespace characters (the inputs of interest are ASCII).
Regular-expression matching in the dispatcher uses only literal text,
alternation groups of literals and one optional literal group, all with
re.IGNORECASE; it is modelled by expanding every pattern into its list of
literal alternatives in backtracking (leftmost/greedy) order and testing
each alternative as a case-insensitive prefix of the message content.
Case-insensitivity is modelled on ASCII letters (every pattern character
is ASCII).
-/

/-- ASCII whitespace, as stripped by Python str.strip() on ASCII input. -/
def isPySpace (c : Char) : Bool :=
  c = ' ' || c = '\t' || c = '\n' || c = '\r' || c = '\x0b' || c = '\x0c'

/-- Leading-whitespace removal (the left half of Python str.strip()). -/
def stripLeft (s : List Char) : List Char := List.dropWhile isPySpace s

/-- Trailing-whitespace removal (the right half of Python str.strip()). -/
def stripRight : List Char → List Char
  | [] => []
  | c :: rest =>
    let r := stripRight rest
    if r.isEmpty then (if isPySpace c then [] else [c]) else c :: r

/-- Python str.strip(): remove leading and trailing whitespace. -/
def pyStrip (s : List Char) : List Char := stripRight (stripLeft s)

/-- Python str.find for a single character, as an Option-valued index
(Python returns -1 for "not found", which the source only ever tests
against; `none` models that case). -/
def pyFind (c : Char) : List Char → Option Nat
  | [] => none
  | a :: rest => if a = c then some 0 else (pyFind c rest).map (· + 1)

/-- True when the string does not begin with a whitespace character. -/
def noLeadWs (l : List Char) : Bool :=
  match l.head? with
  | some c => !isPySpace c
  | none => true

/-- Boolean prefix test on character lists. -/
def strPfx : List Char → List Char → Bool
  | [], _ => true
  | _ :: _, [] => false
  | a :: as, b :: bs => a = b && strPfx as bs

/-- Boolean substring-containment test on character lists. -/
def containsSub (needle : List Char) : List Char → Bool
  | [] => decide (needle = [])
  | c :: rest => strPfx needle (c :: rest) || containsSub needle rest

/-- `next_arg` from commands/__init__.py: split an argument string into
the next token and the unconsumed remainder (None modelled as `none`).
Faithful to the source:
if arg_string starts with a double quote, find the next quote in the
rest; if found at full-string index end_quote, return the text between
the quotes and the stripped text after the closing quote; if not found,
return everything after the opening quote with no remainder.  Otherwise
find the first space: if present, return the stripped text before it and
the stripped text from it onward; if absent, return the whole stripped
string with no remainder. -/
def next_arg (s : List Char) : List Char × Option (List Char) :=
  if s.head? = some '"' then
    match pyFind '"' (s.drop 1) with
    | some i => ((s.drop 1).take i, some (pyStrip (s.drop (i + 2))))
    | none => (s.drop 1, none)
  else
    match pyFind ' ' s with
    | some i => (pyStrip (s.take i), some (pyStrip (s.drop i)))
    | none => (pyStrip s, none)

/-- The tokenizer as the claim's words describe it, for comparison with
`next_arg` (the source).  It differs from the source only in the
with-a-space branch, where the claim's token is the raw text up to the
first space, not that text stripped of surrounding whitespace. -/
def next_arg_claimed (s : List Char) : List Char × Option (List Char) :=
  if s.head? = some '"' then
    match pyFind '"' (s.drop 1) with
    | some i => ((s.drop 1).take i, some (pyStrip (s.drop (i + 2))))
    | none => (s.drop 1, none)
  else
    match pyFind ' ' s with
    | some i => (s.take i, some (pyStrip (s.drop i)))
    | none => (pyStrip s, none)

/-- CommandError from commands/__init__.py: a user-visible error with a
message and an optional (title, text) help reference.  In the source it
is simultaneously an Exception and a CommandResponse. -/
structure CommandError where
  text : List Char
  help : Option (List Char × List Char) := none
deriving DecidableEq

/-- The values a handler can return that run_command recognises as a
CommandResponse: a CommandSuccess or a CommandError (returned as a
value rather than raised). -/
inductive CommandResponse
  | success (text : List Char)
  | error (e : CommandError)
deriving DecidableEq

/-- Modelled from the spec: pluralkit.bot.embeds is outside src/; per the
spec, success replies are prefixed with a check-mark glyph and error
replies are prefixed with a cross glyph and may carry an optional help
reference.  The embed is modelled as the data those renderers receive. -/
inductive Embed
  | success (text : List Char)
  | error (text : List Char) (help : Option (List Char × List Char))
deriving DecidableEq

/-- to_embed, as defined on CommandSuccess and CommandError in the
source: success embeds carry U+2705 + " " + text, error embeds carry
U+274C + " " + text plus the help reference. -/
def to_embed : CommandResponse → Embed
  | CommandResponse.success t => Embed.success ("✅ ".data ++ t)
  | CommandResponse.error e => Embed.error ("❌ ".data ++ e.text) e.help

instance {ε α : Type} [DecidableEq ε] [DecidableEq α] : DecidableEq (Except ε α) :=
  fun a b =>
  match a, b with
  | Except.error e, Except.error f => decidable_of_iff (e = f) (by simp)
  | Except.error _, Except.ok _ => isFalse (fun hc => Except.noConfusion hc)
  | Except.ok _, Except.error _ => isFalse (fun hc => Except.noConfusion hc)
  | Except.ok x, Except.ok y => decidable_of_iff (x = y) (by simp)

/-- Python truthiness test `not self.args` on a str-or-None field. -/
def argsFalsy : Option (List Char) → Bool
  | none => true
  | some s => s.isEmpty

/-- CommandContext.pop_str.  State (the ctx.args field, a str or None) is
passed explicitly; the result is the outcome (the popped value, a str or
None, or a raised CommandError) paired with the args field after the
call.  Faithful to the source: if args is falsy, raise the supplied
error if any, else return None, leaving args untouched; otherwise apply
next_arg, return the token and store the remainder in args. -/
def pop_str (error : Option CommandError) (args : Option (List Char)) :
    Except CommandError (Option (List Char)) × Option (List Char) :=
  if argsFalsy args then
    match error with
    | some e => (Except.error e, args)
    | none => (Except.ok none, args)
  else
    match args with
    | some s =>
      let r := next_arg s
      (Except.ok (some r.1), r.2)
    | none => (Except.ok none, args)  -- unreachable: argsFalsy none = true

/-- A system row, reduced to its database identity (the fields beyond
identity play no role in the claims below). -/
structure SystemE where
  sid : Nat
deriving DecidableEq

/-- Database calls observable during a CommandContext operation. -/
inductive DbEvent
  | get_system_by_account (accountId : List Char)
deriving DecidableEq

/-- CommandContext.get_system: the body is a single call to
db.get_system_by_account(conn, message.author.id).  The database is a
pure oracle `dbm` from account id to an optional system; the second
component is the trace of database calls the operation performs. -/
def get_system (dbm : List Char → Option SystemE) (authorId : List Char) :
    Option SystemE × List DbEvent :=
  (dbm authorId, [DbEvent.get_system_by_account authorId])

/-- The error CommandContext.ensure_system raises when no system is
registered to the invoking account. -/
def noSystemError : CommandError :=
  { text := "No system registered to this account. Use `pk;system new` to register one.".data }

/-- CommandContext.ensure_system: call get_system; if it yields nothing,
raise noSystemError, else return the system.  The database-call trace is
that of the inner get_system call. -/
def ensure_system (dbm : List Char → Option SystemE) (authorId : List Char) :
    Except CommandError SystemE × List DbEvent :=
  let r := get_system dbm authorId
  match r.1 with
  | none => (Except.error noSystemError, r.2)
  | some s => (Except.ok s, r.2)

/-- n sequential CommandContext.get_system calls on the same context:
the list of results paired with the concatenated database-call trace. -/
def get_system_seq (dbm : List Char → Option SystemE) (authorId : List Char) :
    Nat → List (Option SystemE) × List DbEvent
  | 0 => ([], [])
  | n + 1 =>
    let r := get_system dbm authorId
    let rest := get_system_seq dbm authorId n
    (r.1 :: rest.1, r.2 ++ rest.2)

/-- The timeout error raised by both confirmation protocols. -/
def timeoutError : CommandError := { text := "Timed out - try again.".data }

/-- The timeout passed to wait_for_reaction / wait_for_message: 60.0*5
seconds in the source (the float is exactly 300). -/
def confirmTimeoutSeconds : Nat := 60 * 5

/-- CommandContext.confirm_react.  The gateway wait (filtered to the two
designated glyphs and the designated responder) is modelled by its
outcome: `none` when the wait timed out, `some emoji` when a reaction
arrived.  Faithful to the source: on timeout raise the timeout error,
else return whether the chosen emoji is the affirmative check mark. -/
def confirm_react (reaction : Option (List Char)) : Except CommandError Bool :=
  match reaction with
  | none => Except.error timeoutError
  | some emoji => Except.ok (decide (emoji = "✅".data))

/-- CommandContext.confirm_text.  The gateway wait (filtered to the
designated responder and channel) is modelled by its outcome: `none`
when it timed out, `some content` when a message arrived.  Faithful to
the source: on timeout raise the timeout error, else return whether the
received content equals the expected confirmation string. -/
def confirm_text (received : Option (List Char)) (confirmStr : List Char) :
    Except CommandError Bool :=
  match received with
  | none => Except.error timeoutError
  | some content => Except.ok (decide (content = confirmStr))

/-- The data of the incoming discord message used by the dispatcher and
the error logger (ids are strings in the discord library used here). -/
structure MessageData where
  content : List Char
  authorName : List Char
  authorDiscriminator : List Char
  authorId : List Char
  serverId : Option (List Char)
  channelId : List Char
deriving DecidableEq

/-- The footer text built by log_error_in_channel:
"Sender: {name}#{discriminator} | Server: {server id or (DMs)} |
Channel: {channel id}". -/
def senderFooter (msg : MessageData) : List Char :=
  "Sender: ".data ++ msg.authorName ++ "#".data ++ msg.authorDiscriminator ++
  " | Server: ".data ++
  (match msg.serverId with
   | some sid => sid
   | none => "(DMs)".data) ++
  " | Channel: ".data ++ msg.channelId

/-- The operator-channel log record sent by log_error_in_channel: the
target channel, the embed title (the message content), the embed footer
and the code-block body holding the stack trace. -/
structure ErrorLog where
  channel : List Char
  title : List Char
  footer : List Char
  body : List Char
deriving DecidableEq

/-- log_error_in_channel.  The LOG_CHANNEL environment value is passed
explicitly (os.environ would raise when it is unset; the claims concern
a configured operator channel).  Faithful to the source: if the
configured id is empty, return without sending; else send the formatted
traceback block with the diagnostic embed to that channel. -/
def log_error_in_channel (logChannel : List Char) (msg : MessageData)
    (trace : List Char) : Option ErrorLog :=
  if logChannel = [] then none
  else some
    { channel := logChannel
      title := msg.content
      footer := senderFooter msg
      body := "```python\n".data ++ trace ++ "```".data }

/-- What a handler invocation did, as observed at the run_command
boundary: it returned a value (a CommandResponse or not), raised a
CommandError, or raised some other exception (carrying its formatted
traceback). -/
inductive HandlerOutcome
  | returns (r : Option CommandResponse)
  | raisesCommandError (e : CommandError)
  | raisesOther (trace : List Char)
deriving DecidableEq

/-- The single outward action run_command performs for one dispatch:
reply to the user with an embed, log to the operator channel (or
nowhere, when the configured id is empty), or do nothing. -/
inductive DispatchAction
  | reply (e : Embed)
  | log (l : Option ErrorLog)
  | nothing
deriving DecidableEq

/-- run_command.  Faithful to the source: a returned CommandResponse is
rendered with its own to_embed and sent as the reply; a returned
non-response produces no reply; a raised CommandError is caught here and
its to_embed sent as the reply; any other exception is caught here and
routed to log_error_in_channel, with no reply to the user. -/
def run_command (logChannel : List Char) (msg : MessageData)
    (outcome : HandlerOutcome) : DispatchAction :=
  match outcome with
  | HandlerOutcome.returns (some r) => DispatchAction.reply (to_embed r)
  | HandlerOutcome.returns none => DispatchAction.nothing
  | HandlerOutcome.raisesCommandError e => DispatchAction.reply (to_embed (CommandResponse.error e))
  | HandlerOutcome.raisesOther trace =>
    DispatchAction.log (log_error_in_channel logChannel msg trace)

/-- The handlers of the dispatcher's pattern table, one constructor per
handler function referenced in commands/__init__.py. -/
inductive Handler
  | new_system | system_set | system_link | system_unlink | system_fronter
  | system_fronthistory | system_delete | system_frontpercent | system_info
  | import_tupperware
  | new_member | member_set | member_proxy | member_delete | member_info
  | message_info
  | set_log
  | invite_link | export
  | show_help
  | switch_move | switch_out | switch_member
deriving DecidableEq

/-- Lowercasing for the IGNORECASE comparison (ASCII; every pattern
character in the table is ASCII). -/
def lowerStr (s : List Char) : List Char := s.map Char.toLower

/-- Case-insensitive prefix test: does the message content begin with
the given literal (ignoring ASCII case)? -/
def ciPfx (p s : List Char) : Bool := strPfx (lowerStr p) (lowerStr s)

/-- Prepend the two prefix alternatives of "^pk(;|!)" to each literal
alternative of a pattern, in the regex's backtracking order: the ';'
alternative with every pattern alternative first, then the '!'
alternative with every pattern alternative. -/
def withPfx (alts : List (List Char)) : List (List Char) :=
  (alts.map (fun a => "pk;".data ++ a)) ++ (alts.map (fun a => "pk!".data ++ a))

/-- First full literal alternative that is a case-insensitive prefix of
the content, returned as the length of the matched span. -/
def firstSpan : List (List Char) → List Char → Option Nat
  | [], _ => none
  | p :: rest, content =>
    if ciPfx p content then some p.length else firstSpan rest content

/-- re.compile("^pk(;|!)" + pattern, re.IGNORECASE).match(content),
reduced to the length of the matched span (none when there is no match
at the start).  Every pattern in the table is a literal, an alternation
of literals, or a literal with one optional trailing group, so the
regex is exactly the ordered list of its expanded literal alternatives;
the optional group "(age)?" is greedy, so its longer expansion is listed
first. -/
def matchEntry (content : List Char) (alts : List (List Char)) : Option Nat :=
  firstSpan (withPfx alts) content

/-- The ordered command table of command_dispatch, each regex pattern
expanded into its literal alternatives in backtracking order. -/
def commands : List (List (List Char) × Handler) :=
  [ (["system new".data, "system register".data, "system create".data,
      "system init".data], Handler.new_system),
    (["system set".data], Handler.system_set),
    (["system link".data], Handler.system_link),
    (["system unlink".data], Handler.system_unlink),
    (["system fronter".data], Handler.system_fronter),
    (["system fronthistory".data], Handler.system_fronthistory),
    (["system delete".data, "system remove".data, "system destroy".data,
      "system erase".data], Handler.system_delete),
    (["system frontpercentage".data, "system frontpercent".data], Handler.system_frontpercent),
    (["system".data], Handler.system_info),
    (["import tupperware".data], Handler.import_tupperware),
    (["member new".data, "member create".data, "member add".data,
      "member register".data], Handler.new_member),
    (["member set".data], Handler.member_set),
    (["member proxy".data], Handler.member_proxy),
    (["member delete".data, "member remove".data, "member destroy".data,
      "member erase".data], Handler.member_delete),
    (["member".data], Handler.member_info),
    (["message".data], Handler.message_info),
    (["mod log".data], Handler.set_log),
    (["invite".data], Handler.invite_link),
    (["export".data], Handler.export),
    (["help".data], Handler.show_help),
    (["switch move".data], Handler.switch_move),
    (["switch out".data], Handler.switch_out),
    (["switch".data], Handler.switch_member) ]

/-- The scan loop of command_dispatch over a (sub)table: the first entry
whose pattern matches at the start of the content wins, yielding its
handler and the cursor seed (the content after the matched span,
stripped). -/
def dispatchScan (table : List (List (List Char) × Handler)) (content : List Char) :
    Option (Handler × List Char) :=
  match table with
  | [] => none
  | (alts, h) :: rest =>
    match matchEntry content alts with
    | some span => some (h, pyStrip (content.drop span))
    | none => dispatchScan rest content

/-- command_dispatch reduced to its routing decision: the handler and
cursor seed of the first matching table entry, or `none` (the False
return) when nothing matches. -/
def command_dispatch (content : List Char) : Option (Handler × List Char) :=
  dispatchScan commands content

/-- command_dispatch together with the actions it performs: on a match
it constructs the CommandContext and runs run_command on the matched
handler's outcome (the handler's behaviour is the oracle `behav`),
returning True; on no match it returns False having performed no
action at all. -/
def dispatch_run (behav : Handler → List Char → HandlerOutcome)
    (logChannel : List Char) (msg : MessageData) (content : List Char) :
    Bool × List DispatchAction :=
  match command_dispatch content with
  | some (h, seed) => (true, [run_command logChannel msg (behav h seed)])
  | none => (false, [])

/-- ASCII decimal digit test. -/
def isAsciiDigit (c : Char) : Bool := '0' ≤ c && c ≤ '9'

/-- Numeric value of an ASCII digit string. -/
def digitsToNat (l : List Char) : Nat :=
  l.foldl (fun acc c => acc * 10 + (c.toNat - 48)) 0

/-- A nonempty all-digit string, or nothing. -/
def digitsOf (l : List Char) : Option Nat :=
  if l = [] then none
  else if l.all isAsciiDigit then some (digitsToNat l) else none

/-- Python int() on a string, modelled for ASCII decimal input: strip
surrounding whitespace, allow one optional sign, then require a
nonempty run of ASCII digits; anything else raises ValueError (`none`).
(Python additionally accepts underscores between digits and non-ASCII
decimal digits; the claims below do not involve such inputs.) -/
def pyInt (s : List Char) : Option Int :=
  match pyStrip s with
  | '-' :: ds => (digitsOf ds).map (fun n => -(n : Int))
  | '+' :: ds => (digitsOf ds).map (fun n => (n : Int))
  | ds => (digitsOf ds).map (fun n => (n : Int))

/-- show_help from misc_commands.py, reduced to its outcome.  The
help_pages table lives in pluralkit.bot.help, outside src/, so it is
passed as the membership oracle `pages` over the popped category (None
when no argument was given).  Faithful to the source: a known category
builds the help embed, replies with it directly and returns None; an
unknown category returns (not raises) a CommandError naming it. -/
def show_help (pages : Option (List Char) → Bool) (args : List Char) :
    HandlerOutcome :=
  let category : Option (List Char) :=
    if args = [] then none else some (next_arg args).1
  if pages category then HandlerOutcome.returns none
  else HandlerOutcome.returns (some (CommandResponse.error
    { text := "Unknown help page \x27".data ++
        (match category with
         | some c => c
         | none => "None".data) ++ "\x27.".data }))

/-- How far message_info from message_commands.py gets on its argument:
it raises the missing-id CommandError when there is no argument, returns
(as a value) the not-a-number CommandError when int() rejects the popped
token, or proceeds to the database lookup with the parsed id. -/
inductive MessageInfoStep
  | raised (e : CommandError)
  | returned (e : CommandError)
  | lookup (mid : Int)
deriving DecidableEq

/-- The argument-handling front of message_info from message_commands.py
(the help reference help.message_lookup lives outside src/ and is passed
in).  Faithful to the source: pop_str with a supplied error raises it on
an empty cursor; int(mid_str) failing yields a returned CommandError;
otherwise the handler proceeds to look the message up. -/
def message_info (lookupHelp : Option (List Char × List Char)) (args : List Char) :
    MessageInfoStep :=
  if args = [] then
    MessageInfoStep.raised { text := "You must pass a message ID.".data, help := lookupHelp }
  else
    match pyInt (next_arg args).1 with
    | none => MessageInfoStep.returned
        { text := "You must pass a valid number as a message ID.".data, help := lookupHelp }
    | some mid => MessageInfoStep.lookup mid

/-- A database oracle with a system registered to every account, for
concrete witnesses. -/
def exampleDb : List Char → Option SystemE := fun _ => some { sid := 1 }

/-- A concrete incoming message, for concrete witnesses. -/
def exampleMsg : MessageData :=
  { content := "pk;x".data
    authorName := "alice".data
    authorDiscriminator := "0001".data
    authorId := "17".data
    serverId := none
    channelId := "99".data }

/-- The head of a dropWhile result never satisfies the predicate. -/
theorem dropWhile_head_not {p : Char → Bool} (l : List Char) (c : Char)
    (h : (List.dropWhile p l).head? = some c) : p c = false := by
  induction l with
  | nil => simp [List.dropWhile] at h
  | cons a rest ih =>
    by_cases hp : p a = true
    · rw [List.dropWhile_cons, if_pos hp] at h
      exact ih h
    · rw [List.dropWhile_cons, if_neg hp] at h
      simp only [List.head?_cons, Option.some.injEq] at h
      simp only [Bool.not_eq_true] at hp
      rwa [h] at hp

/-- Removing trailing whitespace only shortens a string. -/
theorem stripRight_length_le : ∀ l : List Char, (stripRight l).length ≤ l.length := by
  intro l
  induction l with
  | nil => simp [stripRight]
  | cons a rest ih =>
    simp only [stripRight]
    by_cases hr : (stripRight rest).isEmpty
    · rw [if_pos hr]
      by_cases hs : isPySpace a
      · rw [if_pos hs]; simp
      · rw [if_neg hs]; simp
    · rw [if_neg hr]
      simpa using Nat.succ_le_succ ih

/-- Removing trailing whitespace leaves the head unchanged (or removes
everything). -/
theorem stripRight_head (l : List Char) :
    stripRight l = [] ∨ (stripRight l).head? = l.head? := by
  cases l with
  | nil => left; rfl
  | cons a rest =>
    simp only [stripRight]
    by_cases hr : (stripRight rest).isEmpty
    · rw [if_pos hr]
      by_cases hs : isPySpace a
      · left; rw [if_pos hs]
      · right; rw [if_neg hs]; rfl
    · right; rw [if_neg hr]; rfl

/-- Removing leading whitespace only shortens a string. -/
theorem stripLeft_length_le (l : List Char) : (stripLeft l).length ≤ l.length :=
  List.Sublist.length_le (List.IsSuffix.sublist (List.dropWhile_suffix isPySpace))

/-- A stripped string only shortens. -/
theorem pyStrip_length_le (l : List Char) : (pyStrip l).length ≤ l.length :=
  le_trans (stripRight_length_le _) (stripLeft_length_le l)

/-- A stripped string has no leading whitespace. -/
theorem pyStrip_noLeadWs (l : List Char) : noLeadWs (pyStrip l) = true := by
  unfold pyStrip noLeadWs
  rcases stripRight_head (stripLeft l) with h | h
  · rw [h]; rfl
  · rw [h]
    cases hh : (stripLeft l).head? with
    | none => rfl
    | some c =>
      have hc : isPySpace c = false := dropWhile_head_not l c hh
      simp [hc]

/-- Stripping a string that begins with whitespace strictly shortens it. -/
theorem pyStrip_space_head_length_lt (c : Char) (rest : List Char)
    (hc : isPySpace c = true) :
    (pyStrip (c :: rest)).length < (c :: rest).length := by
  unfold pyStrip
  have h1 : stripLeft (c :: rest) = stripLeft rest := by
    unfold stripLeft
    rw [List.dropWhile_cons, if_pos hc]
  rw [h1]
  calc (stripRight (stripLeft rest)).length
      ≤ (stripLeft rest).length := stripRight_length_le _
    _ ≤ rest.length := stripLeft_length_le rest
    _ < (c :: rest).length := by simp [Nat.lt_succ_self]

/-- pyFind misses exactly the absent characters. -/
theorem pyFind_eq_none_of_not_mem (c : Char) :
    ∀ l : List Char, c ∉ l → pyFind c l = none := by
  intro l
  induction l with
  | nil => intro _; rfl
  | cons a rest ih =>
    intro h
    have hac : ¬ (a = c) := fun hh => h (hh ▸ List.mem_cons_self a rest)
    simp only [pyFind, if_neg hac]
    rw [ih (fun hm => h (List.mem_cons_of_mem a hm))]
    rfl

/-- pyFind locates the first occurrence of a character. -/
theorem pyFind_append_self (c : Char) :
    ∀ t u : List Char, c ∉ t → pyFind c (t ++ c :: u) = some t.length := by
  intro t
  induction t with
  | nil => intro u _; simp [pyFind]
  | cons a rest ih =>
    intro u h
    have hac : ¬ (a = c) := fun hh => h (hh ▸ List.mem_cons_self a rest)
    simp only [List.cons_append, pyFind, if_neg hac, List.append_eq]
    rw [ih u (fun hm => h (List.mem_cons_of_mem a hm))]
    rfl

/-- The character pyFind reports sits at the reported index. -/
theorem pyFind_drop_head (c : Char) :
    ∀ (l : List Char) (i : Nat), pyFind c l = some i → (l.drop i).head? = some c := by
  intro l
  induction l with
  | nil => intro i h; simp [pyFind] at h
  | cons a rest ih =>
    intro i h
    by_cases hac : a = c
    · simp only [pyFind, if_pos hac] at h
      simp only [Option.some.injEq] at h
      rw [← h, List.drop_zero, List.head?_cons, hac]
    · simp only [pyFind, if_neg hac] at h
      cases hf : pyFind c rest with
      | none => rw [hf] at h; simp at h
      | some j =>
        rw [hf] at h
        simp only [Option.map_some', Option.some.injEq] at h
        rw [← h, List.drop_succ_cons]
        exact ih j hf

/-- Any remainder next_arg produces is stripped of leading whitespace
and strictly shorter than the input: the popped occurrence is consumed. -/
theorem next_arg_remainder_inv (s r : List Char) (h : (next_arg s).2 = some r) :
    noLeadWs r = true ∧ r.length < s.length := by
  unfold next_arg at h
  by_cases hq : s.head? = some '"'
  · rw [if_pos hq] at h
    cases s with
    | nil => simp at hq
    | cons a t =>
      cases hf : pyFind '"' ((a :: t).drop 1) with
      | none => rw [hf] at h; simp at h
      | some i =>
        rw [hf] at h
        simp only [Option.some.injEq] at h
        rw [← h]
        refine ⟨pyStrip_noLeadWs _, ?_⟩
        rw [List.drop_succ_cons]
        calc (pyStrip (t.drop (i + 1))).length
            ≤ (t.drop (i + 1)).length := pyStrip_length_le _
          _ ≤ t.length := by rw [List.length_drop]; exact Nat.sub_le _ _
          _ < (a :: t).length := by simp [Nat.lt_succ_self]
  · rw [if_neg hq] at h
    cases hf : pyFind ' ' s with
    | none => rw [hf] at h; simp at h
    | some i =>
      rw [hf] at h
      simp only [Option.some.injEq] at h
      rw [← h]
      have hd : (s.drop i).head? = some ' ' := pyFind_drop_head ' ' s i hf
      cases hdrop : s.drop i with
      | nil => rw [hdrop] at hd; simp at hd
      | cons b bs =>
        rw [hdrop] at hd
        simp only [List.head?_cons, Option.some.injEq] at hd
        refine ⟨pyStrip_noLeadWs _, ?_⟩
        have h1 : (pyStrip (b :: bs)).length < (b :: bs).length :=
          pyStrip_space_head_length_lt b bs (by rw [hd]; rfl)
        have h2 : (b :: bs).length ≤ s.length := by
          rw [← hdrop, List.length_drop]
          exact Nat.sub_le _ _
        exact lt_of_lt_of_le h1 h2

/-- The dispatch scan skips every leading entry whose pattern fails. -/
theorem dispatchScan_append (content : List Char) :
    ∀ pre rest : List (List (List Char) × Handler),
    (∀ e ∈ pre, matchEntry content e.1 = none) →
    dispatchScan (pre ++ rest) content = dispatchScan rest content := by
  intro pre
  induction pre with
  | nil => intro rest _; rfl
  | cons e pre ih =>
    intro rest h
    cases e with
    | mk alts hd =>
      have he : matchEntry content alts = none := h (alts, hd) (List.mem_cons_self _ _)
      simp only [List.cons_append, dispatchScan, he]
      exact ih rest (fun x hx => h x (List.mem_cons_of_mem _ hx))

/-- If some listed literal alternative is a case-insensitive prefix of
the content, the scan over the alternatives reports a match. -/
theorem firstSpan_isSome_of_mem (content : List Char) :
    ∀ (ps : List (List Char)) (p : List Char), p ∈ ps → ciPfx p content = true →
    (firstSpan ps content).isSome = true := by
  intro ps
  induction ps with
  | nil => intro p hp _; simp at hp
  | cons q rest ih =>
    intro p hp hc
    simp only [firstSpan]
    by_cases hq : ciPfx q content = true
    · rw [if_pos hq]; rfl
    · rw [if_neg hq]
      rcases List.mem_cons.mp hp with h | h
      · rw [← h] at hq; exact absurd hc hq
      · exact ih p h hc

/-- If the content begins (case-insensitively) with prefix marker plus
one of a pattern's literal alternatives, the pattern matches. -/
theorem matchEntry_isSome (content : List Char) (alts : List (List Char))
    (a : List Char) (ha : a ∈ alts)
    (hc : ciPfx ("pk;".data ++ a) content = true) :
    (matchEntry content alts).isSome = true := by
  apply firstSpan_isSome_of_mem content (withPfx alts) ("pk;".data ++ a) ?_ hc
  unfold withPfx
  exact List.mem_append_left _ (List.mem_map_of_mem _ ha)

/-- Computation rule: quoted input with a closing quote found. -/
theorem next_arg_quote_some (s : List Char) (i : Nat) (hq : s.head? = some '"')
    (hf : pyFind '"' (s.drop 1) = some i) :
    next_arg s = ((s.drop 1).take i, some (pyStrip (s.drop (i + 2)))) := by
  unfold next_arg
  rw [if_pos hq, hf]

/-- Computation rule: quoted input with no closing quote. -/
theorem next_arg_quote_none (s : List Char) (hq : s.head? = some '"')
    (hf : pyFind '"' (s.drop 1) = none) :
    next_arg s = (s.drop 1, none) := by
  unfold next_arg
  rw [if_pos hq, hf]

/-- Computation rule: unquoted input with a space found. -/
theorem next_arg_space_some (s : List Char) (i : Nat)
    (hq : ¬ (s.head? = some '"')) (hf : pyFind ' ' s = some i) :
    next_arg s = (pyStrip (s.take i), some (pyStrip (s.drop i))) := by
  unfold next_arg
  rw [if_neg hq, hf]

/-- Computation rule: unquoted input with no space. -/
theorem next_arg_space_none (s : List Char)
    (hq : ¬ (s.head? = some '"')) (hf : pyFind ' ' s = none) :
    next_arg s = (pyStrip s, none) := by
  unfold next_arg
  rw [if_neg hq, hf]

/-- Claim C1: for every incoming message whose content begins
(case-insensitively) with the prefix marker, the dispatcher scans the
fixed command table in its listed order and invokes the handler of the
first pattern whose expression matches at the start of the content
(first-match-wins); in particular "pk;system set foo" dispatches to the
system_set handler with cursor seed "foo", not to the bare system
handler. -/
theorem C1_first_match_wins :
    (∀ (content : List Char) (pre post : List (List (List Char) × Handler))
       (alts : List (List Char)) (hd : Handler) (span : Nat),
       commands = pre ++ (alts, hd) :: post →
       (∀ e ∈ pre, matchEntry content e.1 = none) →
       matchEntry content alts = some span →
       command_dispatch content = some (hd, pyStrip (content.drop span)))
    ∧ command_dispatch ("pk;system set foo".data)
        = some (Handler.system_set, "foo".data)
    ∧ Handler.system_set ≠ Handler.system_info := by
  refine ⟨?_, by decide, by decide⟩
  intro content pre post alts hd span hsplit hpre hm
  unfold command_dispatch
  rw [hsplit, dispatchScan_append content pre _ hpre]
  simp only [dispatchScan, hm]

/-- Witness for C1: "pk;system set foo" at the second table entry, the
first entry failing to match. -/
theorem C1_first_match_wins_witness :
    (commands = commands.take 1 ++ (["system set".data], Handler.system_set) :: commands.drop 2)
    ∧ (∀ e ∈ commands.take 1, matchEntry ("pk;system set foo".data) e.1 = none)
    ∧ matchEntry ("pk;system set foo".data) (["system set".data]) = some 13
    ∧ command_dispatch ("pk;system set foo".data)
        = some (Handler.system_set, pyStrip (("pk;system set foo".data).drop 13)) :=
  ⟨rfl, by decide, by decide,
    C1_first_match_wins.1 ("pk;system set foo".data) (commands.take 1) (commands.drop 2)
      (["system set".data]) Handler.system_set 13 rfl (by decide) (by decide)⟩

/-- Claim C2 counterexample: on the input "\ta b" the code yields the
token "a" (the text before the first space, stripped), while the claim's
contract yields the unstripped token "\ta"; the claim's space-branch
token is therefore not what next_arg computes. -/
theorem C2_counterexample_token_not_trimmed :
    next_arg ("\ta b".data) = ("a".data, some ("b".data))
    ∧ next_arg_claimed ("\ta b".data) = ("\ta".data, some ("b".data))
    ∧ next_arg ("\ta b".data) ≠ next_arg_claimed ("\ta b".data) := by decide

/-- Claim C2 as amended: the tokenizer contract with the space-branch
token trimmed of surrounding whitespace.  Quoted input with a closing
quote yields the text strictly between the quotes and the trimmed text
after the closing quote; quoted input without a closing quote yields
everything after the opening quote and no remainder; otherwise the token
is the text up to the first space trimmed of surrounding whitespace
(the whole trimmed string if no space exists) and the remainder is the
text from that space onward trimmed, or absent if no space exists; empty
input yields an empty token and absent remainder. -/
theorem C2_tokenizer_contract :
    (∀ t u : List Char, '"' ∉ t →
       next_arg ('"' :: (t ++ '"' :: u)) = (t, some (pyStrip u)))
    ∧ (∀ t : List Char, '"' ∉ t → next_arg ('"' :: t) = (t, none))
    ∧ (∀ t u : List Char, ¬ ((t ++ ' ' :: u).head? = some '"') → ' ' ∉ t →
       next_arg (t ++ ' ' :: u) = (pyStrip t, some (pyStrip (' ' :: u))))
    ∧ (∀ t : List Char, ¬ (t.head? = some '"') → ' ' ∉ t →
       next_arg t = (pyStrip t, none))
    ∧ next_arg [] = ([], none) := by
  refine ⟨?_, ?_, ?_, ?_, rfl⟩
  · intro t u ht
    have hdrop1 : ('"' :: (t ++ '"' :: u)).drop 1 = t ++ '"' :: u := rfl
    have hf : pyFind '"' (('"' :: (t ++ '"' :: u)).drop 1) = some t.length := by
      rw [hdrop1]
      exact pyFind_append_self '"' t u ht
    rw [next_arg_quote_some ('"' :: (t ++ '"' :: u)) t.length rfl hf, hdrop1,
      List.take_left]
    have h2 : ('"' :: (t ++ '"' :: u)).drop (t.length + 2) = u := by
      rw [List.drop_succ_cons]
      have ha : (t ++ ['"']) ++ u = t ++ '"' :: u := by simp
      rw [← ha]
      exact List.drop_left' (by simp)
    rw [h2]
  · intro t ht
    have hdrop1 : ('"' :: t).drop 1 = t := rfl
    have hf : pyFind '"' (('"' :: t).drop 1) = none := by
      rw [hdrop1]
      exact pyFind_eq_none_of_not_mem '"' t ht
    rw [next_arg_quote_none ('"' :: t) rfl hf, hdrop1]
  · intro t u hq hs
    rw [next_arg_space_some _ t.length hq (pyFind_append_self ' ' t u hs),
      List.take_left, List.drop_left]
  · intro t hq hs
    rw [next_arg_space_none _ hq (pyFind_eq_none_of_not_mem ' ' t hs)]

/-- Witness for C2 (amended): a quoted token and a space-delimited token
with leading whitespace, at concrete inputs. -/
theorem C2_tokenizer_contract_witness :
    ('"' ∉ ("a b".data))
    ∧ next_arg ('"' :: ("a b".data ++ '"' :: (" c".data)))
        = ("a b".data, some (pyStrip (" c".data)))
    ∧ (¬ ((("\ta".data) ++ ' ' :: ("b".data)).head? = some '"'))
    ∧ (' ' ∉ ("\ta".data))
    ∧ next_arg (("\ta".data) ++ ' ' :: ("b".data))
        = (pyStrip ("\ta".data), some (pyStrip (' ' :: ("b".data)))) :=
  ⟨by decide, C2_tokenizer_contract.1 ("a b".data) (" c".data) (by decide),
   by decide, by decide,
   C2_tokenizer_contract.2.2.1 ("\ta".data) ("b".data) (by decide) (by decide)⟩

/-- Claim C3: a CommandError raised inside the handler is caught at the
run_command boundary and rendered to the user as an error embed carrying
its message and optional help reference; any other exception is logged
with diagnostic context (message content as title; sender name and
discriminator, server id or the "(DMs)" sentinel, and channel id in the
footer; the stack trace as a code block) to the operator-configured
channel, and produces no reply to the end user. -/
theorem C3_dispatcher_error_boundary (logChannel : List Char) (msg : MessageData)
    (e : CommandError) (trace : List Char) (hlc : logChannel ≠ []) :
    run_command logChannel msg (HandlerOutcome.raisesCommandError e)
      = DispatchAction.reply (Embed.error ("❌ ".data ++ e.text) e.help)
    ∧ run_command logChannel msg (HandlerOutcome.raisesOther trace)
      = DispatchAction.log (some
          { channel := logChannel, title := msg.content, footer := senderFooter msg,
            body := "```python\n".data ++ trace ++ "```".data })
    ∧ (∀ em : Embed, run_command logChannel msg (HandlerOutcome.raisesOther trace)
        ≠ DispatchAction.reply em) := by
  refine ⟨rfl, ?_, ?_⟩
  · show DispatchAction.log (log_error_in_channel logChannel msg trace) = _
    unfold log_error_in_channel
    rw [if_neg hlc]
  · intro em hc
    exact DispatchAction.noConfusion hc

/-- Witness for C3: a concrete raised error and a concrete unhandled
trace, with a configured log channel. -/
theorem C3_dispatcher_error_boundary_witness :
    (("123".data : List Char) ≠ [])
    ∧ run_command ("123".data) exampleMsg
        (HandlerOutcome.raisesCommandError { text := "oops".data })
        = DispatchAction.reply (Embed.error ("❌ ".data ++ "oops".data) none)
    ∧ run_command ("123".data) exampleMsg (HandlerOutcome.raisesOther ("tb".data))
        = DispatchAction.log (some
            { channel := "123".data, title := exampleMsg.content,
              footer := senderFooter exampleMsg,
              body := "```python\n".data ++ "tb".data ++ "```".data }) :=
  ⟨by decide,
   (C3_dispatcher_error_boundary ("123".data) exampleMsg { text := "oops".data }
      ("tb".data) (by decide)).1,
   (C3_dispatcher_error_boundary ("123".data) exampleMsg { text := "oops".data }
      ("tb".data) (by decide)).2.1⟩

/-- Claim C4 counterexample: get_system has no cache.  With a database
in which the account has a system, the first call succeeds, yet two
sequential get_system calls on the same context perform two database
fetches, where the claim requires the second call to perform none. -/
theorem C4_counterexample_refetch :
    (get_system exampleDb ("42".data)).1 = some { sid := 1 }
    ∧ (get_system_seq exampleDb ("42".data) 2).2
        = [DbEvent.get_system_by_account ("42".data),
           DbEvent.get_system_by_account ("42".data)]
    ∧ ¬ ((get_system_seq exampleDb ("42".data) 2).2.length ≤ 1) := by decide

/-- Claim C4 as amended: the invoking account's system is fetched from
the database anew on every get_system call; nothing is cached on the
CommandContext, so n sequential calls perform exactly n fetches and each
returns the value the database yields at that moment. -/
theorem C4_fetch_per_call (dbm : List Char → Option SystemE) (a : List Char) :
    ∀ n : Nat, (get_system_seq dbm a n).1 = List.replicate n (dbm a)
      ∧ (get_system_seq dbm a n).2
          = List.replicate n (DbEvent.get_system_by_account a) := by
  intro n
  induction n with
  | zero => exact ⟨rfl, rfl⟩
  | succ k ih =>
    constructor
    · simp only [get_system_seq, get_system, List.replicate_succ]
      rw [ih.1]
    · simp only [get_system_seq, get_system, List.replicate_succ]
      rw [ih.2]
      rfl

/-- Claim C5: when the cursor's remaining text is empty, pop_str raises
the supplied CommandError exactly when one is supplied, and with none
supplied yields the empty/absent token (Python None) rather than
raising; in both cases the cursor state is left unchanged. -/
theorem C5_pop_str_empty (args : Option (List Char)) (e : CommandError)
    (hempty : argsFalsy args = true) :
    pop_str (some e) args = (Except.error e, args)
    ∧ pop_str none args = (Except.ok none, args) := by
  constructor
  · unfold pop_str
    rw [if_pos hempty]
  · unfold pop_str
    rw [if_pos hempty]

/-- Witness for C5: an empty cursor, with and without a supplied error. -/
theorem C5_pop_str_empty_witness :
    argsFalsy (some []) = true
    ∧ pop_str (some { text := "need an argument".data }) (some [])
        = (Except.error { text := "need an argument".data }, some [])
    ∧ pop_str none (some []) = (Except.ok none, some []) :=
  ⟨by decide,
   (C5_pop_str_empty (some []) { text := "need an argument".data } (by decide)).1,
   (C5_pop_str_empty (some []) { text := "need an argument".data } (by decide)).2⟩

/-- Claim C6: both confirmation protocols use the fixed 300-second
(5-minute) timeout; on no matching event they raise the CommandError
"Timed out - try again." rather than returning false; on a reaction,
confirm_react returns true exactly for the affirmative glyph; on a
message, confirm_text returns whether the content equals the expected
confirmation string. -/
theorem C6_confirmation_timeouts :
    confirmTimeoutSeconds = 300
    ∧ confirm_react none = Except.error { text := "Timed out - try again.".data }
    ∧ (∀ c : List Char,
        confirm_text none c = Except.error { text := "Timed out - try again.".data })
    ∧ (∀ (emoji : List Char) (b : Bool), confirm_react (some emoji) = Except.ok b →
        (b = true ↔ emoji = "✅".data))
    ∧ (∀ (content c : List Char) (b : Bool),
        confirm_text (some content) c = Except.ok b → (b = true ↔ content = c)) := by
  refine ⟨rfl, rfl, fun c => rfl, ?_, ?_⟩
  · intro emoji b hb
    have hb' : Except.ok (ε := CommandError) (decide (emoji = "✅".data)) = Except.ok b := hb
    injection hb' with hb''
    rw [← hb'']
    simp
  · intro content c b hb
    have hb' : Except.ok (ε := CommandError) (decide (content = c)) = Except.ok b := hb
    injection hb' with hb''
    rw [← hb'']
    simp

/-- Witness for C6: a concrete affirmative reaction and a concrete
non-matching confirmation message. -/
theorem C6_confirmation_timeouts_witness :
    confirm_react (some ("✅".data)) = Except.ok true
    ∧ (true = true ↔ ("✅".data : List Char) = "✅".data)
    ∧ confirm_text (some ("yes".data)) ("no".data) = Except.ok false
    ∧ (false = true ↔ ("yes".data : List Char) = "no".data) :=
  ⟨by decide, C6_confirmation_timeouts.2.2.2.1 ("✅".data) true (by decide),
   by decide, C6_confirmation_timeouts.2.2.2.2 ("yes".data) ("no".data) false (by decide)⟩

/-- Claim C7 counterexample: after popping from the cursor state "a a",
the remaining text "a" does contain the popped token "a"; the claimed
"never contains the popped token" invariant fails. -/
theorem C7_counterexample_remainder_contains_token :
    pop_str none (some ("a a".data)) = (Except.ok (some ("a".data)), some ("a".data))
    ∧ containsSub ("a".data) ("a".data) = true := by decide

/-- Claim C7 as amended: after any pop that yields a token, the cursor's
remaining text has no leading whitespace and is strictly shorter than
the text before the pop (the popped occurrence is consumed), though it
may still contain another occurrence equal to the popped token. -/
theorem C7_pop_progress (err : Option CommandError) (s tok : List Char)
    (rest : Option (List Char))
    (h : pop_str err (some s) = (Except.ok (some tok), rest)) :
    rest = none ∨ ∃ r, rest = some r ∧ noLeadWs r = true ∧ r.length < s.length := by
  unfold pop_str at h
  by_cases hf : argsFalsy (some s) = true
  · rw [if_pos hf] at h
    cases err with
    | some e => simp at h
    | none => simp at h
  · rw [if_neg hf] at h
    have h2 : (next_arg s).2 = rest := congrArg Prod.snd h
    cases hr : (next_arg s).2 with
    | none => left; rw [← h2, hr]
    | some r =>
      right
      exact ⟨r, by rw [← h2, hr], (next_arg_remainder_inv s r hr).1,
        (next_arg_remainder_inv s r hr).2⟩

/-- Witness for C7 (amended): popping "ab" from "ab cd" leaves "cd",
which has no leading whitespace and is strictly shorter. -/
theorem C7_pop_progress_witness :
    pop_str none (some ("ab cd".data)) = (Except.ok (some ("ab".data)), some ("cd".data))
    ∧ ((some ("cd".data) : Option (List Char)) = none
       ∨ ∃ r, (some ("cd".data) : Option (List Char)) = some r
           ∧ noLeadWs r = true ∧ r.length < ("ab cd".data).length) :=
  ⟨by decide,
   C7_pop_progress none ("ab cd".data) ("ab".data) (some ("cd".data)) (by decide)⟩

/-- Claim C8: a message that does not begin (case-insensitively) with
the prefix marker and a pattern from the table makes command_dispatch
return the no-match result (False) with no reply, no handler invocation
and no logging: the no-match path performs no action at all. -/
theorem C8_no_match_silent (content : List Char)
    (h : ∀ e ∈ commands, matchEntry content e.1 = none) :
    command_dispatch content = none
    ∧ (∀ (behav : Handler → List Char → HandlerOutcome) (logChannel : List Char)
        (msg : MessageData), dispatch_run behav logChannel msg content = (false, [])) := by
  have hd : command_dispatch content = none := by
    unfold command_dispatch
    have hall := dispatchScan_append content commands [] h
    rw [List.append_nil] at hall
    rw [hall]
    rfl
  refine ⟨hd, fun behav lc msg => ?_⟩
  unfold dispatch_run
  rw [hd]

/-- Witness for C8: an ordinary chat message matching no pattern. -/
theorem C8_no_match_silent_witness :
    (∀ e ∈ commands, matchEntry ("hello there".data) e.1 = none)
    ∧ command_dispatch ("hello there".data) = none :=
  ⟨by decide, (C8_no_match_silent ("hello there".data) (by decide)).1⟩

/-- Claim C9: a handler that returns a CommandError value (rather than
raising it) has that error rendered exactly as a raised one, through the
returned-CommandResponse branch of run_command; show_help returns a
CommandError for an unknown help page, and message_info returns one for
a non-numeric message id. -/
theorem C9_error_as_data :
    (∀ (logChannel : List Char) (msg : MessageData) (e : CommandError),
       run_command logChannel msg (HandlerOutcome.returns (some (CommandResponse.error e)))
         = run_command logChannel msg (HandlerOutcome.raisesCommandError e)
       ∧ run_command logChannel msg (HandlerOutcome.returns (some (CommandResponse.error e)))
           = DispatchAction.reply (Embed.error ("❌ ".data ++ e.text) e.help))
    ∧ (∀ (pages : Option (List Char) → Bool) (args : List Char),
       pages (if args = [] then none else some (next_arg args).1) = false →
       ∃ e, show_help pages args = HandlerOutcome.returns (some (CommandResponse.error e)))
    ∧ (∀ (lookupHelp : Option (List Char × List Char)) (args : List Char),
       args ≠ [] → pyInt (next_arg args).1 = none →
       ∃ e, message_info lookupHelp args = MessageInfoStep.returned e) := by
  refine ⟨fun lc msg e => ⟨rfl, rfl⟩, ?_, ?_⟩
  · intro pages args hp
    have hstep : show_help pages args = HandlerOutcome.returns (some (CommandResponse.error
        { text := "Unknown help page \x27".data ++
            (match (if args = [] then none else some (next_arg args).1) with
             | some c => c
             | none => "None".data) ++ "\x27.".data })) := by
      simp only [show_help]
      rw [hp]
      rfl
    exact ⟨_, hstep⟩
  · intro lookupHelp args ha hp
    have hstep : message_info lookupHelp args = MessageInfoStep.returned
        { text := "You must pass a valid number as a message ID.".data,
          help := lookupHelp } := by
      unfold message_info
      rw [if_neg ha, hp]
    exact ⟨_, hstep⟩

/-- Witness for C9: a concrete returned error rendered like a raised
one, an unknown help page, and a non-numeric message id. -/
theorem C9_error_as_data_witness :
    (run_command ("1".data) exampleMsg
        (HandlerOutcome.returns (some (CommandResponse.error { text := "x".data })))
      = run_command ("1".data) exampleMsg
          (HandlerOutcome.raisesCommandError { text := "x".data }))
    ∧ ((fun _ => false : Option (List Char) → Bool)
        (if ("zzz".data : List Char) = [] then none else some (next_arg ("zzz".data)).1)
          = false)
    ∧ (∃ e, show_help (fun _ => false) ("zzz".data)
        = HandlerOutcome.returns (some (CommandResponse.error e)))
    ∧ (("abc".data : List Char) ≠ [])
    ∧ pyInt (next_arg ("abc".data)).1 = none
    ∧ (∃ e, message_info none ("abc".data) = MessageInfoStep.returned e) :=
  ⟨(C9_error_as_data.1 ("1".data) exampleMsg { text := "x".data }).1,
   by decide,
   C9_error_as_data.2.1 (fun _ => false) ("zzz".data) (by decide),
   by decide, by decide,
   C9_error_as_data.2.2 none ("abc".data) (by decide) (by decide)⟩

/-- Claim C10: the router requires no delimiter after a matched pattern:
content beginning (case-insensitively) with the prefix marker and a
pattern's characters matches that pattern even when more letters follow
immediately; in particular "pk;systemfoo" dispatches to the bare system
handler with cursor seed "foo". -/
theorem C10_no_delimiter :
    (∀ (content : List Char) (alts : List (List Char)) (a : List Char),
       a ∈ alts → ciPfx ("pk;".data ++ a) content = true →
       (matchEntry content alts).isSome = true)
    ∧ command_dispatch ("pk;systemfoo".data) = some (Handler.system_info, "foo".data) := by
  refine ⟨?_, by decide⟩
  intro content alts a ha hc
  exact matchEntry_isSome content alts a ha hc

/-- Witness for C10: the bare system pattern matched by "pk;systemfoo",
where letters immediately follow the pattern text. -/
theorem C10_no_delimiter_witness :
    (("system".data : List Char) ∈ [("system".data : List Char)])
    ∧ ciPfx ("pk;".data ++ "system".data) ("pk;systemfoo".data) = true
    ∧ (matchEntry ("pk;systemfoo".data) [("system".data)]).isSome = true :=
  ⟨by decide, by decide,
   C10_no_delimiter.1 ("pk;systemfoo".data) [("system".data)] ("system".data)
     (by decide) (by decide)⟩
